import Mathlib

/-!
Verification of the test-image generator `create-test-image.py`.

The script builds a 1000×1000 RGB canvas, draws three center-anchored text
strings and three filled rectangles, saves the canvas as a JPEG and prints a
confirmation line.  The embedding keeps the canvas as a pixel function,
records the draw calls as a trace, and abstracts the text-rendering backend
(which pixels a rendered string covers) as a parameter, since it belongs to
the imaging library, not to the script.  Font loading and the success of the
file write are modelled as explicit environment inputs, and the observable
side effects (file writes, standard output) are recorded as an event list.
-/

namespace CreateTestImage

/-- An RGB color, one byte per channel. -/
structure Color where
  r : Nat
  g : Nat
  b : Nat
  deriving DecidableEq

/-- PIL named color `white` = (255,255,255). -/
def white : Color := ⟨255, 255, 255⟩

/-- PIL named color `black` = (0,0,0). -/
def black : Color := ⟨0, 0, 0⟩

/-- PIL named color `red` = (255,0,0). -/
def red : Color := ⟨255, 0, 0⟩

/-- PIL named color `gray` = (128,128,128). -/
def gray : Color := ⟨128, 128, 128⟩

/-- An in-memory raster image: mode string, dimensions and a pixel map. -/
structure Image where
  mode : String
  width : Nat
  height : Nat
  px : Nat × Nat → Color

/-- `Image.new(mode, size, color)`: a canvas filled with a solid color. -/
def Image.new (mode : String) (size : Nat × Nat) (color : Color) : Image :=
  ⟨mode, size.1, size.2, fun _ => color⟩

/-- A text-rendering backend: given the anchor coordinate, the string, the
anchor mode (PIL anchor code, `"mm"` = the coordinate is the horizontal and
vertical center of the rendered string) and a pixel, decides whether that
pixel is covered by the rendered string.  The script never chooses a font, so
the backend is the only free parameter of the drawing semantics. -/
def TextBackend : Type := (Nat × Nat) → String → String → (Nat × Nat) → Bool

/-- One draw call of the script: `draw.text(xy, s, fill, anchor)` or
`draw.rectangle([x0,y0,x1,y1], fill)`. -/
inductive DrawOp where
  | text (xy : Nat × Nat) (s : String) (fill : Color) (anchor : String)
  | rectangle (x0 y0 x1 y1 : Nat) (fill : Color)
  deriving DecidableEq

/-- The draw calls of lines 18–25 of the script, in program order. -/
def drawOps : List DrawOp :=
  [ .text (500, 400) "TEST LISTING" red "mm",
    .text (500, 500) "Wire Harness" black "mm",
    .text (500, 600) "DELETE ME" red "mm",
    .rectangle 200 700 800 750 black,
    .rectangle 150 680 250 770 gray,
    .rectangle 750 680 850 770 gray ]

/-- The text draw calls of the trace, in order. -/
def textOps : List DrawOp :=
  drawOps.filter fun op =>
    match op with
    | .text _ _ _ _ => true
    | .rectangle _ _ _ _ _ => false

/-- The rectangle draw calls of the trace, in order. -/
def rectOps : List DrawOp :=
  drawOps.filter fun op =>
    match op with
    | .text _ _ _ _ => false
    | .rectangle _ _ _ _ _ => true

/-- Membership of a pixel in a PIL rectangle `[x0, y0, x1, y1]`: both corner
rows and columns are included. -/
def inRect (x0 y0 x1 y1 : Nat) (p : Nat × Nat) : Bool :=
  decide (x0 ≤ p.1) && decide (p.1 ≤ x1) && decide (y0 ≤ p.2) && decide (p.2 ≤ y1)

/-- Apply one draw call to the canvas: a rectangle paints its fill color on
every pixel inside it, a text call paints its fill color on every pixel the
backend says the rendered string covers. -/
def applyOp (backend : TextBackend) (img : Image) : DrawOp → Image
  | .text xy s fill anchor =>
      { img with px := fun p => if backend xy s anchor p then fill else img.px p }
  | .rectangle x0 y0 x1 y1 fill =>
      { img with px := fun p => if inRect x0 y0 x1 y1 p then fill else img.px p }

/-- The canvas allocated on line 5: `Image.new('RGB', (1000, 1000), 'white')`. -/
def initialImage : Image := Image.new "RGB" (1000, 1000) white

/-- The canvas after all draw calls of the script have been applied in
program order. -/
def finalImage (backend : TextBackend) : Image :=
  drawOps.foldl (applyOp backend) initialImage

/-- Outcome of the `try` block on lines 9–15: each call to
`ImageFont.load_default()` either returns a font or raises.  If either call
raises, the `except` arm assigns `None` to both references. -/
def loadFonts {F : Type} (r1 r2 : Except Unit F) : Option F × Option F :=
  match r1 with
  | .error _ => (none, none)
  | .ok f1 =>
    match r2 with
    | .error _ => (none, none)
    | .ok f2 => (some f1, some f2)

/-- Whether an `Except` value is the raising outcome. -/
def isErr {ε α : Type} : Except ε α → Bool
  | .error _ => true
  | .ok _ => false

/-- The environment of one run: the outcomes of the two font-load calls, the
text-rendering backend, and whether the file write on line 28 succeeds. -/
structure Env (F : Type) where
  fontLoad1 : Except Unit F
  fontLoad2 : Except Unit F
  backend : TextBackend
  saveOk : Bool

/-- A completed file write: path, format, encoder quality and the image
content handed to the encoder. -/
structure FileWrite where
  path : String
  format : String
  quality : Nat
  image : Image

/-- An observable side effect of the run. -/
inductive Event where
  | fileWrite (w : FileWrite)
  | printLine (s : String)

/-- The output path on line 28. -/
def outputPath : String := "test-images/test-wire-harness.jpg"

/-- The confirmation message printed on line 29. -/
def confirmMessage : String := "Test image created: test-images/test-wire-harness.jpg"

/-- The result of one run: the two font references, the canvas, and the
event trace.  If the file write raises, the exception propagates: no write
event and no print event are recorded. -/
structure RunResult (F : Type) where
  font_large : Option F
  font_medium : Option F
  canvas : Image
  events : List Event
  ok : Bool

/-- The file writes of a run, in order. -/
def RunResult.writes {F : Type} (r : RunResult F) : List FileWrite :=
  r.events.filterMap fun e =>
    match e with
    | .fileWrite w => some w
    | .printLine _ => none

/-- The standard output of a run: each `print` call emits its string
followed by a newline. -/
def RunResult.stdout {F : Type} (r : RunResult F) : String :=
  r.events.foldl
    (fun acc e =>
      match e with
      | .fileWrite _ => acc
      | .printLine s => acc ++ s ++ "\n")
    ""

/-- The whole script, lines 5–29: allocate the canvas, attempt the font
loads, apply the draw calls in order, then save and print; a failing save
propagates and skips the print. -/
def run {F : Type} (env : Env F) : RunResult F :=
  let fonts := loadFonts env.fontLoad1 env.fontLoad2
  let img := drawOps.foldl (applyOp env.backend) initialImage
  { font_large := fonts.1
    font_medium := fonts.2
    canvas := img
    events :=
      if env.saveOk then
        [.fileWrite ⟨outputPath, "JPEG", 95, img⟩, .printLine confirmMessage]
      else
        []
    ok := env.saveOk }

/-- Claim C1: after all draw operations, the pixel at (500,725) is black and
the pixels at (200,725) and (800,725) are gray, for every text backend; the
connector centers lie inside the wire rectangle as well, and are gray only
because the gray rectangles are drawn after the black one. -/
theorem rectangle_center_pixels (backend : TextBackend) :
    (finalImage backend).px (500, 725) = black ∧
    (finalImage backend).px (200, 725) = gray ∧
    (finalImage backend).px (800, 725) = gray ∧
    inRect 200 700 800 750 (200, 725) = true ∧
    inRect 200 700 800 750 (800, 725) = true := by
  refine ⟨?_, ?_, ?_, by decide, by decide⟩ <;>
    simp [finalImage, drawOps, applyOp, inRect, initialImage, Image.new]

/-- Claim C2: on a successful run, standard output is exactly the
confirmation line followed by a newline, and the print event comes after the
file-write event; if the save raises, the exception propagates, no event is
recorded, and nothing is printed. -/
theorem stdout_behavior {F : Type} (env : Env F) :
    (env.saveOk = true →
      (run env).stdout = "Test image created: test-images/test-wire-harness.jpg\n" ∧
      ∃ w, (run env).events = [Event.fileWrite w, Event.printLine confirmMessage]) ∧
    (env.saveOk = false →
      (run env).stdout = "" ∧ (run env).events = [] ∧ (run env).ok = false) := by
  constructor
  · intro h
    refine ⟨?_, ⟨⟨outputPath, "JPEG", 95, finalImage env.backend⟩, ?_⟩⟩ <;>
      simp [run, h, RunResult.stdout, confirmMessage, finalImage, outputPath]
  · intro h
    simp [run, h, RunResult.stdout]

/-- Witness for C2 at a concrete environment. -/
theorem stdout_behavior_witness :
    (run (⟨Except.error (), Except.error (), fun _ _ _ _ => false, true⟩ : Env Unit)).stdout =
      "Test image created: test-images/test-wire-harness.jpg\n" ∧
    (run (⟨Except.error (), Except.error (), fun _ _ _ _ => false, false⟩ : Env Unit)).stdout =
      "" :=
  ⟨((stdout_behavior _).1 rfl).1, ((stdout_behavior _).2 rfl).1⟩

/-- Claim C3: if either font-load call raises, the failure is swallowed:
both font references become `None`, the canvas is still the fully drawn one,
and the event trace and success flag agree with those of a run whose font
loads succeed. -/
theorem font_failure_swallowed {F : Type} (r1 r2 : Except Unit F)
    (backend : TextBackend) (saveOk : Bool)
    (h : isErr r1 = true ∨ isErr r2 = true) :
    (run ⟨r1, r2, backend, saveOk⟩).font_large = none ∧
    (run ⟨r1, r2, backend, saveOk⟩).font_medium = none ∧
    (run ⟨r1, r2, backend, saveOk⟩).canvas = finalImage backend ∧
    (run ⟨r1, r2, backend, saveOk⟩).events =
      (run (⟨Except.ok (), Except.ok (), backend, saveOk⟩ : Env Unit)).events ∧
    (run ⟨r1, r2, backend, saveOk⟩).ok =
      (run (⟨Except.ok (), Except.ok (), backend, saveOk⟩ : Env Unit)).ok := by
  rcases r1 with e1 | f1
  · simp [run, loadFonts, finalImage]
  · rcases r2 with e2 | f2
    · simp [run, loadFonts, finalImage]
    · simp [isErr] at h

/-- Witness for C3 at a concrete environment with a failing first load. -/
theorem font_failure_swallowed_witness :
    (run (⟨Except.error (), Except.ok (), fun _ _ _ _ => false, true⟩ : Env Unit)).font_large =
        none ∧
    (run (⟨Except.error (), Except.ok (), fun _ _ _ _ => false, true⟩ : Env Unit)).font_medium =
        none :=
  ⟨(font_failure_swallowed (Except.error ()) (Except.ok ()) (fun _ _ _ _ => false) true
      (Or.inl rfl)).1,
   (font_failure_swallowed (Except.error ()) (Except.ok ()) (fun _ _ _ _ => false) true
      (Or.inl rfl)).2.1⟩

/-- Claim C4: on a successful run the write list is exactly one file — the
canvas after all draw calls, encoded as JPEG at quality 95, at the fixed
output path; on a failing save nothing is written; and the canvas handed to
the encoder is the final one, so the save happens after all drawing. -/
theorem save_behavior {F : Type} (env : Env F) :
    (env.saveOk = true →
      (run env).writes = [⟨outputPath, "JPEG", 95, finalImage env.backend⟩]) ∧
    (env.saveOk = false → (run env).writes = []) ∧
    (run env).canvas = finalImage env.backend := by
  refine ⟨fun h => ?_, fun h => ?_, ?_⟩ <;>
    simp_all [run, RunResult.writes, finalImage]

/-- Witness for C4 at a concrete environment with a successful save. -/
theorem save_behavior_witness :
    (run (⟨Except.ok (), Except.ok (), fun _ _ _ _ => false, true⟩ : Env Unit)).writes =
      [⟨outputPath, "JPEG", 95, finalImage (fun _ _ _ _ => false)⟩] :=
  (save_behavior _).1 rfl

/-- Claim C5: the canvas is allocated as an RGB raster of width 1000 and
height 1000, every pixel initially white; the canvas keeps those dimensions
through the run, and every written image is 1000×1000. -/
theorem canvas_dimensions {F : Type} (env : Env F) :
    initialImage.mode = "RGB" ∧
    initialImage.width = 1000 ∧ initialImage.height = 1000 ∧
    (∀ p, initialImage.px p = white) ∧
    (run env).canvas.width = 1000 ∧ (run env).canvas.height = 1000 ∧
    ((run env).writes.map fun w => (w.image.width, w.image.height)) =
      (if env.saveOk then [(1000, 1000)] else []) := by
  refine ⟨rfl, rfl, rfl, fun p => rfl, ?_, ?_, ?_⟩
  · simp [run, drawOps, applyOp, initialImage, Image.new]
  · simp [run, drawOps, applyOp, initialImage, Image.new]
  · cases h : env.saveOk <;>
      simp [run, RunResult.writes, h, drawOps, applyOp, initialImage, Image.new]

/-- Claim C6: exactly three text strings are drawn, in program order:
"TEST LISTING" in red at (500,400), "Wire Harness" in black at (500,500),
"DELETE ME" in red at (500,600), each with PIL anchor "mm", meaning the
coordinate is the horizontal and vertical center of the rendered string. -/
theorem text_draw_calls :
    textOps = [ .text (500, 400) "TEST LISTING" red "mm",
                .text (500, 500) "Wire Harness" black "mm",
                .text (500, 600) "DELETE ME" red "mm" ] := by
  rfl

/-- Claim C7: exactly three filled rectangles are drawn, in program order —
black (200,700)–(800,750), gray (150,680)–(250,770), gray (750,680)–(850,770)
— and the whole trace is the text calls followed by the rectangle calls, so
every rectangle is drawn after all text. -/
theorem rectangle_draw_calls :
    rectOps = [ .rectangle 200 700 800 750 black,
                .rectangle 150 680 250 770 gray,
                .rectangle 750 680 850 770 gray ] ∧
    drawOps = textOps ++ rectOps := by
  exact ⟨rfl, rfl⟩

/-- Claim C8: a pixel outside all three rectangles and outside the rendered
extent of all three text strings keeps the white background color after all
draw operations. -/
theorem background_pixels (backend : TextBackend) (p : Nat × Nat)
    (h1 : backend (500, 400) "TEST LISTING" "mm" p = false)
    (h2 : backend (500, 500) "Wire Harness" "mm" p = false)
    (h3 : backend (500, 600) "DELETE ME" "mm" p = false)
    (h4 : inRect 200 700 800 750 p = false)
    (h5 : inRect 150 680 250 770 p = false)
    (h6 : inRect 750 680 850 770 p = false) :
    (finalImage backend).px p = white := by
  simp [finalImage, drawOps, applyOp, initialImage, Image.new, h1, h2, h3, h4, h5, h6]

/-- Witness for C8: pixel (10,10) is white under a backend rendering no
pixel. -/
theorem background_pixels_witness :
    (finalImage (fun _ _ _ _ => false)).px (10, 10) = white :=
  background_pixels _ (10, 10) rfl rfl rfl (by decide) (by decide) (by decide)

/-- Claim C9: two runs with the same text backend produce the same canvas,
whatever the font outcomes; if they also agree on the save outcome, their
whole event traces (file writes and output) coincide. -/
theorem deterministic_runs {F G : Type} (e1 : Env F) (e2 : Env G)
    (hb : e1.backend = e2.backend) :
    (run e1).canvas = (run e2).canvas ∧
    (e1.saveOk = e2.saveOk → (run e1).events = (run e2).events) := by
  constructor
  · simp [run, hb]
  · intro hs
    simp [run, hb, hs]

/-- Witness for C9: two concrete runs with different font types and font
outcomes but the same backend. -/
theorem deterministic_runs_witness :
    (run (⟨Except.error (), Except.error (), fun _ _ _ _ => false, true⟩ : Env Unit)).canvas =
      (run (⟨Except.ok true, Except.ok false, fun _ _ _ _ => false, true⟩ : Env Bool)).canvas :=
  (deterministic_runs _ _ rfl).1

/-- Claim C10: the loaded fonts are never passed to any draw call, so two
runs differing only in the font-load outcomes produce the same canvas, the
same event trace, and the same success flag. -/
theorem font_outcome_irrelevant {F G : Type}
    (r1 r2 : Except Unit F) (s1 s2 : Except Unit G)
    (backend : TextBackend) (saveOk : Bool) :
    (run ⟨r1, r2, backend, saveOk⟩).canvas = (run ⟨s1, s2, backend, saveOk⟩).canvas ∧
    (run ⟨r1, r2, backend, saveOk⟩).events = (run ⟨s1, s2, backend, saveOk⟩).events ∧
    (run ⟨r1, r2, backend, saveOk⟩).ok = (run ⟨s1, s2, backend, saveOk⟩).ok :=
  ⟨rfl, rfl, rfl⟩

end CreateTestImage
